import Mathlib

/-!
Shallow embedding of the DevSkin mobile monitoring SDK core
(src/transport.ts and src/collectors/heatmap.ts).

Conventions of the embedding:
* JavaScript numbers are modelled as rationals (`ℚ`); queue lengths and
  retry counters as naturals.
* Record payloads carried by the transport queue are opaque to the queue
  logic (the code treats `data` as `any`); they are modelled by an
  abstract identifier `Data := ℕ`.  The field enrichment performed by
  `enqueue`/`sendToBackend` (spreading `apiKey`, `applicationId`, ...)
  is a bijection on the payload and is absorbed into the identifier.
* `fetch` outcomes and the `beforeSend` hook are oracles passed in as
  function parameters: `beforeSend : Payload → Bool` (`false` models a
  falsy return, i.e. a veto) and `netOk : Request → Bool` (`false`
  models a thrown network error / non-2xx response).
* Timers (`setTimeout`, `setInterval`) are modelled by explicit
  transition functions invoked by the environment; `Math.random()`
  draws are explicit `rand` parameters.
-/

namespace DevSkin

/-- Abstract identifier for a queued record payload (`data: any` in the
source); the queue logic never inspects it. -/
abbrev Data := ℕ

/-- The `type` field of `QueuedItem` in src/transport.ts (line 21). -/
inductive ItemType
  | event
  | session
  | error
  | network
  | performance
  | heatmap
  | screen
deriving DecidableEq, Repr

/-- Structure `QueuedItem` from src/transport.ts lines 20-25. -/
structure QueuedItem where
  qtype : ItemType
  data : Data
  timestamp : ℕ
  retryCount : ℕ
deriving DecidableEq, Repr

/-- Constant `maxRetries` from src/transport.ts line 32. -/
def maxRetries : ℕ := 3

/-- Constant `maxQueueSize` from src/transport.ts line 30. -/
def maxQueueSize : ℕ := 30

/-- Function `getEndpointForType` from src/transport.ts lines 241-258.  The
`session` case falls through to the `default` arm of the `switch`. -/
def getEndpointForType : ItemType → String
  | .event => "/v1/rum/events"
  | .error => "/v1/errors/errors"
  | .network => "/v1/rum/network-requests"
  | .performance => "/v1/rum/web-vitals"
  | .heatmap => "/v1/sdk/heatmap"
  | .screen => "/v1/rum/page-views"
  | .session => "/v1/rum/events"

/-- Shape of the JSON body handed to `sendToBackend` by `flush`
(src/transport.ts lines 152-176): either the `{ events: [...] }` batch
wrapper, the `{ heatmaps: [...], apiKey, appId }` wrapper, or a bare
per-entry payload. -/
inductive Payload
  | batchEvents (events : List Data)
  | heatmapBatch (heatmaps : List Data)
  | single (d : Data)
deriving DecidableEq, Repr

/-- One HTTP request issued by `sendToBackend` (endpoint plus body). -/
structure Request where
  endpoint : String
  payload : Payload
deriving DecidableEq, Repr

/-- Method `sendToBackend` from src/transport.ts lines 260-310.  Returns the
requests actually put on the wire and whether the call completed without
throwing.  When the `beforeSend` hook returns a falsy value the function
returns early: no fetch happens and no error is raised. -/
def sendToBackend (beforeSend : Payload → Bool) (netOk : Request → Bool)
    (endpoint : String) (p : Payload) : List Request × Bool :=
  if beforeSend p then
    let req : Request := ⟨endpoint, p⟩
    ([req], netOk req)
  else
    ([], true)

/-- The `for (const data of dataArray) await this.sendToBackend(...)`
loops in `flush` (src/transport.ts lines 166-175): sends entries one by
one; a thrown error aborts the rest of the loop. -/
def sendEach (beforeSend : Payload → Bool) (netOk : Request → Bool)
    (endpoint : String) : List Data → List Request × Bool
  | [] => ([], true)
  | d :: rest =>
    let r := sendToBackend beforeSend netOk endpoint (.single d)
    if r.2 then
      let rs := sendEach beforeSend netOk endpoint rest
      (r.1 ++ rs.1, rs.2)
    else
      (r.1, false)

/-- The per-group dispatch of `flush` (src/transport.ts lines 152-176):
`event` groups with more than one entry go as one batch request,
`heatmap` groups always go as one batched request, `screen` and all
remaining groups loop over their entries individually. -/
def sendGroup (beforeSend : Payload → Bool) (netOk : Request → Bool)
    (t : ItemType) (dataArray : List Data) : List Request × Bool :=
  if t = .event ∧ 1 < dataArray.length then
    sendToBackend beforeSend netOk "/v1/rum/events/batch" (.batchEvents dataArray)
  else if t = .heatmap then
    sendToBackend beforeSend netOk "/v1/sdk/heatmap" (.heatmapBatch dataArray)
  else if t = .screen then
    sendEach beforeSend netOk "/v1/rum/page-views" dataArray
  else
    sendEach beforeSend netOk (getEndpointForType t) dataArray

/-- Helper for `groupTypes`: JavaScript object keys appear in insertion
order, so a type is appended the first time it is seen. -/
def insertIfAbsent (t : ItemType) (ts : List ItemType) : List ItemType :=
  if t ∈ ts then ts else ts ++ [t]

/-- The keys of the `grouped` object built by `flush`
(src/transport.ts lines 143-149), in first-occurrence order. -/
def groupTypes (q : List QueuedItem) : List ItemType :=
  q.foldl (fun acc it => insertIfAbsent it.qtype acc) []

/-- The `dataArray` collected for one group by `flush`: the payloads of
the queued items of that type, in queue order. -/
def groupData (t : ItemType) (q : List QueuedItem) : List Data :=
  (q.filter (fun it => it.qtype == t)).map (fun it => it.data)

/-- The `catch` block of `flush` (src/transport.ts lines 177-188): on a
group failure every payload of the group is looked up among the drained
items and re-queued with `retryCount + 1`, unless the retry budget is
exhausted. -/
def requeueGroup (items : List QueuedItem) (dataArray : List Data) :
    List QueuedItem :=
  dataArray.filterMap (fun d =>
    match items.find? (fun it => it.data == d) with
    | some orig =>
      if orig.retryCount < maxRetries then
        some { orig with retryCount := orig.retryCount + 1 }
      else
        none
    | none => none)

/-- Method `flush` from src/transport.ts lines 136-196.  Returns the requests
put on the wire and the queue contents after the flush settles (the
queue is drained up front; only re-queued failures remain). -/
def flushT (beforeSend : Payload → Bool) (netOk : Request → Bool)
    (q : List QueuedItem) : List Request × List QueuedItem :=
  (((groupTypes q).map
      (fun t => (sendGroup beforeSend netOk t (groupData t q)).1)).flatten,
   ((groupTypes q).map
      (fun t =>
        if (sendGroup beforeSend netOk t (groupData t q)).2 then []
        else requeueGroup q (groupData t q))).flatten)

/-- The fresh item built by `enqueue` (src/transport.ts lines 216-221):
`retryCount` starts at 0. -/
def mkItem (t : ItemType) (d : Data) (now : ℕ) : QueuedItem :=
  ⟨t, d, now, 0⟩

/-- Method `enqueue` from src/transport.ts lines 207-227: push the new item and
auto-flush once the queue reaches `maxQueueSize`. -/
def enqueueT (beforeSend : Payload → Bool) (netOk : Request → Bool)
    (t : ItemType) (d : Data) (now : ℕ) (q : List QueuedItem) :
    List QueuedItem :=
  let q2 := q ++ [mkItem t d now]
  if maxQueueSize ≤ q2.length then (flushT beforeSend netOk q2).2 else q2

/-! ## Heatmap / touch collector (src/collectors/heatmap.ts) -/

/-- Result type of `getSwipeDirection` (src/collectors/heatmap.ts line
290); `up`/`down` double as the scroll direction values. -/
inductive SwipeDirection
  | up
  | down
  | left
  | right
deriving DecidableEq, Repr

/-- The `type` discriminator of `TouchData`. -/
inductive TouchType
  | tap
  | swipe
  | longPress
  | pinch
deriving DecidableEq, Repr

/-- Record `TouchData` as built by `recordTouch` (src/collectors/heatmap.ts
lines 265-276) together with the `extra` fields the gesture handlers
attach.  The wall-clock `timestamp` string, the optional `force`
reading and the swipe `velocity` field (an irrational square root,
never inspected by any control flow) are not modelled. -/
structure TouchData where
  ttype : TouchType
  x : ℚ
  y : ℚ
  relativeX : ℚ
  relativeY : ℚ
  screenName : String
  screenWidth : ℚ
  screenHeight : ℚ
  duration : Option ℚ := none
  direction : Option SwipeDirection := none
  endX : Option ℚ := none
  endY : Option ℚ := none
deriving DecidableEq, Repr

/-- Record `ScrollData` as built by `onScroll` (src/collectors/heatmap.ts
lines 178-186); the `timestamp` string is not modelled. -/
structure ScrollData where
  screenName : String
  scrollDepth : ℤ
  maxScrollDepth : ℤ
  contentHeight : ℚ
  viewportHeight : ℚ
  direction : SwipeDirection
deriving DecidableEq, Repr

/-- Record `TouchPoint` (src/collectors/heatmap.ts lines 9-14); `force` is not
modelled. -/
structure TouchPoint where
  x : ℚ
  y : ℚ
  timestamp : ℚ
deriving DecidableEq, Repr

/-- The `heatmapOptions` toggles read by the collector. -/
structure HeatmapConfig where
  trackTouches : Bool
  trackScrolls : Bool
  trackGestures : Bool
  touchSampling : ℚ
deriving DecidableEq, Repr

/-- Constant `LONG_PRESS_DURATION` (src/collectors/heatmap.ts line 35). -/
def LONG_PRESS_DURATION : ℚ := 500

/-- Constant `SWIPE_THRESHOLD` (line 36). -/
def SWIPE_THRESHOLD : ℚ := 50

/-- Constant `SWIPE_VELOCITY_THRESHOLD` (line 37). -/
def SWIPE_VELOCITY_THRESHOLD : ℚ := 3 / 10

/-- Constant `MAX_QUEUE_SIZE` (line 42). -/
def MAX_QUEUE_SIZE : ℕ := 50

/-- Mutable state of `HeatmapCollector`.  The queues are kept alongside
append-only `sent` lists recording what `flush` handed to the
transport, so that emission of records can be observed across flushes.
`maxScrollDepth` is the `Map<string, number>`: the only read the code
performs is `get(k) || 0` and only non-negative values are ever stored,
so a total function with default 0 is faithful.  `longPressPending`
models a scheduled, not yet fired and not yet cleared long-press
timeout. -/
structure HeatmapState where
  currentScreen : String
  screenWidth : ℚ
  screenHeight : ℚ
  touchQueue : List TouchData
  scrollQueue : List ScrollData
  sentTouches : List TouchData
  sentScrolls : List ScrollData
  maxScrollDepth : String → ℤ
  scrollStartY : ℚ
  touchStartTime : ℚ
  touchStartPoint : Option TouchPoint
  longPressPending : Bool

/-- The freshly constructed collector (field initializers at
src/collectors/heatmap.ts lines 17-42). -/
def initState : HeatmapState where
  currentScreen := ""
  screenWidth := 0
  screenHeight := 0
  touchQueue := []
  scrollQueue := []
  sentTouches := []
  sentScrolls := []
  maxScrollDepth := fun _ => 0
  scrollStartY := 0
  touchStartTime := 0
  touchStartPoint := none
  longPressPending := false

/-- Method `HeatmapCollector.flush` (src/collectors/heatmap.ts lines 232-252):
both queues are handed to the transport and emptied. -/
def flushH (s : HeatmapState) : HeatmapState :=
  { s with
    touchQueue := []
    scrollQueue := []
    sentTouches := s.sentTouches ++ s.touchQueue
    sentScrolls := s.sentScrolls ++ s.scrollQueue }

/-- The `touchData` object literal inside `recordTouch`
(src/collectors/heatmap.ts lines 265-276), with the `extra` spread
passed explicitly. -/
def buildTouchData (s : HeatmapState) (ttype : TouchType) (x y : ℚ)
    (dur : Option ℚ) (dir : Option SwipeDirection) (endX endY : Option ℚ) :
    TouchData where
  ttype := ttype
  x := x
  y := y
  relativeX := if 0 < s.screenWidth then x / s.screenWidth else 0
  relativeY := if 0 < s.screenHeight then y / s.screenHeight else 0
  screenName := s.currentScreen
  screenWidth := s.screenWidth
  screenHeight := s.screenHeight
  duration := dur
  direction := dir
  endX := endX
  endY := endY

/-- Method `recordTouch` (src/collectors/heatmap.ts lines 255-288).  `rand` is
the `Math.random()` draw of the sampling gate; the record is skipped
when `rand > touchSampling`.  A full queue triggers `flush`. -/
def recordTouch (cfg : HeatmapConfig) (rand : ℚ) (ttype : TouchType)
    (x y : ℚ) (dur : Option ℚ) (dir : Option SwipeDirection)
    (endX endY : Option ℚ) (s : HeatmapState) : HeatmapState :=
  if cfg.touchSampling < rand then s
  else
    let s2 := { s with
      touchQueue := s.touchQueue ++ [buildTouchData s ttype x y dur dir endX endY] }
    if MAX_QUEUE_SIZE ≤ s2.touchQueue.length then flushH s2 else s2

/-- Method `onTouchStart` (src/collectors/heatmap.ts lines 92-107): record the
start point and arm the long-press timer; `now` is `Date.now()`. -/
def onTouchStart (cfg : HeatmapConfig) (now x y : ℚ) (s : HeatmapState) :
    HeatmapState :=
  if !cfg.trackTouches then s
  else
    { s with
      touchStartTime := now
      touchStartPoint := some ⟨x, y, now⟩
      longPressPending := true }

/-- The `setTimeout` callback armed by `onTouchStart`
(src/collectors/heatmap.ts lines 99-106), invoked by the environment
when the timer fires (i.e. 500ms elapsed with the timeout neither
cleared nor already fired).  Note the callback does not clear
`touchStartPoint`. -/
def fireLongPress (cfg : HeatmapConfig) (rand : ℚ) (s : HeatmapState) :
    HeatmapState :=
  if !s.longPressPending then s
  else
    let s1 := { s with longPressPending := false }
    match s.touchStartPoint with
    | some p =>
      recordTouch cfg rand .longPress p.x p.y (some LONG_PRESS_DURATION)
        none none none s1
    | none => s1

/-- Method `getSwipeDirection` (src/collectors/heatmap.ts lines 290-299). -/
def getSwipeDirection (dx dy : ℚ) : SwipeDirection :=
  if |dx| > |dy| then
    (if 0 < dx then .right else .left)
  else
    (if 0 < dy then .down else .up)

/-- Method `onTouchEnd` (src/collectors/heatmap.ts lines 112-149).  The two
square-root comparisons of the source are translated to their exact
square-free equivalents: `distance < 10` becomes `dx*dx + dy*dy < 100`
and the conjunction `distance >= 50 && distance/duration >= 0.3`
becomes `2500 ≤ distSq && (0.3*duration)^2 ≤ distSq` (equivalent for
`duration > 0`; for `duration = 0` the translation also agrees with the
JavaScript `Infinity`/`NaN` comparisons). -/
def onTouchEnd (cfg : HeatmapConfig) (now x y rand : ℚ) (s : HeatmapState) :
    HeatmapState :=
  if !cfg.trackTouches then s
  else
    let s1 := { s with longPressPending := false }
    match s.touchStartPoint with
    | none => s1
    | some p =>
      let duration := now - s.touchStartTime
      let dx := x - p.x
      let dy := y - p.y
      let distSq := dx * dx + dy * dy
      let s2 :=
        if distSq < 10 * 10 ∧ duration < LONG_PRESS_DURATION then
          recordTouch cfg rand .tap p.x p.y (some duration) none none none s1
        else if SWIPE_THRESHOLD * SWIPE_THRESHOLD ≤ distSq ∧
            (SWIPE_VELOCITY_THRESHOLD * duration) *
              (SWIPE_VELOCITY_THRESHOLD * duration) ≤ distSq then
          recordTouch cfg rand .swipe p.x p.y (some duration)
            (some (getSwipeDirection dx dy)) (some x) (some y) s1
        else s1
      { s2 with touchStartPoint := none }

/-- Behaviour of `Math.round` on rationals: JavaScript rounds half toward
positive infinity. -/
def jsRound (q : ℚ) : ℤ := ⌊q + 1 / 2⌋

/-- The scroll-depth computation of `onScroll`
(src/collectors/heatmap.ts lines 166-167). -/
def scrollDepthCalc (scrollY contentHeight viewportHeight : ℚ) : ℤ :=
  let maxScrollY := contentHeight - viewportHeight
  if 0 < maxScrollY then min 100 (jsRound (scrollY / maxScrollY * 100))
  else 100

/-- Method `onScroll` (src/collectors/heatmap.ts lines 162-197). -/
def onScroll (cfg : HeatmapConfig) (scrollY contentHeight viewportHeight : ℚ)
    (s : HeatmapState) : HeatmapState :=
  if !cfg.trackScrolls then s
  else
    let scrollDepth := scrollDepthCalc scrollY contentHeight viewportHeight
    let previousMax := s.maxScrollDepth s.currentScreen
    let s2 :=
      if previousMax < scrollDepth then
        let s1 := { s with
          maxScrollDepth := fun k =>
            if k = s.currentScreen then scrollDepth else s.maxScrollDepth k
          scrollQueue := s.scrollQueue ++
            [{ screenName := s.currentScreen
               scrollDepth := scrollDepth
               maxScrollDepth := scrollDepth
               contentHeight := contentHeight
               viewportHeight := viewportHeight
               direction := if s.scrollStartY < scrollY then .down else .up }] }
        if MAX_QUEUE_SIZE ≤ s1.scrollQueue.length then flushH s1 else s1
      else s
    { s2 with scrollStartY := scrollY }

/-- Method `setCurrentScreen` (src/collectors/heatmap.ts lines 78-82). -/
def setCurrentScreen (screenName : String) (s : HeatmapState) : HeatmapState :=
  { s with
    currentScreen := screenName
    maxScrollDepth := fun k =>
      if k = screenName then 0 else s.maxScrollDepth k }

/-- All touch records ever produced, in emission order (records already
handed to the transport followed by the still-queued ones);
invariant under the internal `flush`. -/
def allTouches (s : HeatmapState) : List TouchData :=
  s.sentTouches ++ s.touchQueue

/-- All scroll records ever produced, in emission order. -/
def allScrolls (s : HeatmapState) : List ScrollData :=
  s.sentScrolls ++ s.scrollQueue

/-! ## Spec-side definitions used to compare code against claims -/

/-- The grouping rule exactly as the spec sentence behind claim C1
states it: only `event` groups with more than one entry are batched;
every other group is sent as one individual request per entry. -/
def claimedGroupingSpec (t : ItemType) (arr : List Data) : List Request :=
  if t = .event ∧ 1 < arr.length then
    [⟨"/v1/rum/events/batch", .batchEvents arr⟩]
  else
    arr.map (fun d => ⟨getEndpointForType t, .single d⟩)

/-- The grouping rule the code actually implements (amended claim C1):
multi-entry `event` groups are batched, `heatmap` groups are always
sent as one batched request, everything else goes per entry. -/
def amendedGroupingSpec (t : ItemType) (arr : List Data) : List Request :=
  if t = .event ∧ 1 < arr.length then
    [⟨"/v1/rum/events/batch", .batchEvents arr⟩]
  else if t = .heatmap then
    [⟨"/v1/sdk/heatmap", .heatmapBatch arr⟩]
  else
    arr.map (fun d => ⟨getEndpointForType t, .single d⟩)

/-- The scroll-depth formula exactly as claim C4 states it: the rounded
percentage clamped to the interval [0, 100], and 100 whenever the
content fits in the viewport. -/
def scrollDepthSpec (scrollY contentHeight viewportHeight : ℚ) : ℤ :=
  if contentHeight ≤ viewportHeight then 100
  else max 0 (min 100 (jsRound (100 * scrollY / (contentHeight - viewportHeight))))

/-! ## Concrete oracles and inputs for counterexamples and witnesses -/

/-- A beforeSend hook that accepts every payload. -/
def allowAll : Payload → Bool := fun _ => true

/-- A network oracle on which every request succeeds. -/
def okAll : Request → Bool := fun _ => true

/-- A network oracle on which every request fails. -/
def okNone : Request → Bool := fun _ => false

/-- A beforeSend hook that vetoes exactly the payload of record 1. -/
def vetoOne : Payload → Bool := fun p => p != .single 1

/-- A network oracle failing exactly the request carrying record 2. -/
def failTwo : Request → Bool := fun r => r.payload != .single 2

/-- A queue holding two heatmap records. -/
def qTwoHeatmaps : List QueuedItem := [⟨.heatmap, 1, 0, 0⟩, ⟨.heatmap, 2, 0, 0⟩]

/-- A queue holding two network records. -/
def qTwoNetwork : List QueuedItem := [⟨.network, 1, 0, 0⟩, ⟨.network, 2, 0, 0⟩]

/-- A queue holding a network record with exhausted retry budget next to
one with remaining budget. -/
def qRetryMix : List QueuedItem := [⟨.network, 5, 0, 3⟩, ⟨.network, 6, 0, 1⟩]

/-- The heatmap configuration the claims speak about: everything
enabled, sampling rate 1. -/
def cfg1 : HeatmapConfig := ⟨true, true, true, 1⟩

/-! ## Helper lemmas -/

lemma sendEach_allOk (e : String) (l : List Data) :
    sendEach (fun _ => true) (fun _ => true) e l =
      (l.map (fun d => ⟨e, .single d⟩), true) := by
  induction l with
  | nil => rfl
  | cons d rest ih => simp [sendEach, sendToBackend, ih]

lemma sendGroup_allOk (t : ItemType) (arr : List Data) :
    sendGroup (fun _ => true) (fun _ => true) t arr =
      (amendedGroupingSpec t arr, true) := by
  unfold sendGroup amendedGroupingSpec
  split_ifs with h1 h2 h3
  · rfl
  · rfl
  · subst h3; rw [sendEach_allOk]; rfl
  · rw [sendEach_allOk]

lemma allTouches_flushH (s : HeatmapState) : allTouches (flushH s) = allTouches s := by
  simp [allTouches, flushH]

lemma allScrolls_flushH (s : HeatmapState) : allScrolls (flushH s) = allScrolls s := by
  simp [allScrolls, flushH]

lemma allTouches_recordTouch (cfg : HeatmapConfig) (r : ℚ) (tt : TouchType)
    (x y : ℚ) (dur : Option ℚ) (dir : Option SwipeDirection) (ex ey : Option ℚ)
    (s : HeatmapState) (h : r ≤ cfg.touchSampling) :
    allTouches (recordTouch cfg r tt x y dur dir ex ey s) =
      allTouches s ++ [buildTouchData s tt x y dur dir ex ey] := by
  unfold recordTouch
  rw [if_neg (not_lt.mpr h)]
  dsimp only
  split_ifs with hfull
  · simp [flushH, allTouches]
  · simp [allTouches]

lemma recordTouch_touchStartPoint (cfg : HeatmapConfig) (r : ℚ) (tt : TouchType)
    (x y : ℚ) (dur : Option ℚ) (dir : Option SwipeDirection) (ex ey : Option ℚ)
    (s : HeatmapState) :
    (recordTouch cfg r tt x y dur dir ex ey s).touchStartPoint = s.touchStartPoint := by
  unfold recordTouch flushH
  dsimp only
  split_ifs <;> rfl

lemma recordTouch_touchStartTime (cfg : HeatmapConfig) (r : ℚ) (tt : TouchType)
    (x y : ℚ) (dur : Option ℚ) (dir : Option SwipeDirection) (ex ey : Option ℚ)
    (s : HeatmapState) :
    (recordTouch cfg r tt x y dur dir ex ey s).touchStartTime = s.touchStartTime := by
  unfold recordTouch flushH
  dsimp only
  split_ifs <;> rfl

lemma recordTouch_currentScreen (cfg : HeatmapConfig) (r : ℚ) (tt : TouchType)
    (x y : ℚ) (dur : Option ℚ) (dir : Option SwipeDirection) (ex ey : Option ℚ)
    (s : HeatmapState) :
    (recordTouch cfg r tt x y dur dir ex ey s).currentScreen = s.currentScreen := by
  unfold recordTouch flushH
  dsimp only
  split_ifs <;> rfl

lemma recordTouch_screenWidth (cfg : HeatmapConfig) (r : ℚ) (tt : TouchType)
    (x y : ℚ) (dur : Option ℚ) (dir : Option SwipeDirection) (ex ey : Option ℚ)
    (s : HeatmapState) :
    (recordTouch cfg r tt x y dur dir ex ey s).screenWidth = s.screenWidth := by
  unfold recordTouch flushH
  dsimp only
  split_ifs <;> rfl

lemma recordTouch_screenHeight (cfg : HeatmapConfig) (r : ℚ) (tt : TouchType)
    (x y : ℚ) (dur : Option ℚ) (dir : Option SwipeDirection) (ex ey : Option ℚ)
    (s : HeatmapState) :
    (recordTouch cfg r tt x y dur dir ex ey s).screenHeight = s.screenHeight := by
  unfold recordTouch flushH
  dsimp only
  split_ifs <;> rfl

lemma recordTouch_maxScrollDepth (cfg : HeatmapConfig) (r : ℚ) (tt : TouchType)
    (x y : ℚ) (dur : Option ℚ) (dir : Option SwipeDirection) (ex ey : Option ℚ)
    (s : HeatmapState) :
    (recordTouch cfg r tt x y dur dir ex ey s).maxScrollDepth = s.maxScrollDepth := by
  unfold recordTouch flushH
  dsimp only
  split_ifs <;> rfl

lemma allTouches_clearPoint (s : HeatmapState) :
    allTouches { s with touchStartPoint := none } = allTouches s := rfl

lemma onTouchStart_maxScrollDepth (cfg : HeatmapConfig) (now x y : ℚ)
    (s : HeatmapState) :
    (onTouchStart cfg now x y s).maxScrollDepth = s.maxScrollDepth := by
  unfold onTouchStart
  split_ifs <;> rfl

lemma fireLongPress_maxScrollDepth (cfg : HeatmapConfig) (r : ℚ)
    (s : HeatmapState) :
    (fireLongPress cfg r s).maxScrollDepth = s.maxScrollDepth := by
  unfold fireLongPress
  split_ifs with h
  · rfl
  · rcases hsp : s.touchStartPoint with _ | p
    · rfl
    · dsimp only
      rw [recordTouch_maxScrollDepth]

lemma onTouchEnd_maxScrollDepth (cfg : HeatmapConfig) (now x y r : ℚ)
    (s : HeatmapState) :
    (onTouchEnd cfg now x y r s).maxScrollDepth = s.maxScrollDepth := by
  unfold onTouchEnd
  split_ifs with h
  · rfl
  · rcases hsp : s.touchStartPoint with _ | p
    · rfl
    · dsimp only
      split_ifs <;> first | rw [recordTouch_maxScrollDepth] | rfl

lemma flushH_maxScrollDepth (s : HeatmapState) :
    (flushH s).maxScrollDepth = s.maxScrollDepth := rfl

lemma buildTouchData_congr {s1 s2 : HeatmapState} (tt : TouchType) (x y : ℚ)
    (dur : Option ℚ) (dir : Option SwipeDirection) (ex ey : Option ℚ)
    (h1 : s1.currentScreen = s2.currentScreen)
    (h2 : s1.screenWidth = s2.screenWidth)
    (h3 : s1.screenHeight = s2.screenHeight) :
    buildTouchData s1 tt x y dur dir ex ey = buildTouchData s2 tt x y dur dir ex ey := by
  unfold buildTouchData
  rw [h1, h2, h3]

/-! ## Claim theorems -/

/-- C1 (amended): on a flush in which every send succeeds and nothing
is vetoed, each `event` group with more than one pending entry yields a
single batch request, each `heatmap` group yields a single batched
request as well, and every other group yields one individual request
per entry (the amendment: `heatmap` is batched, not individual). -/
theorem flush_grouping_amended (q : List QueuedItem) :
    (flushT (fun _ => true) (fun _ => true) q).1 =
      ((groupTypes q).map
        (fun t => amendedGroupingSpec t (groupData t q))).flatten := by
  unfold flushT
  simp only [sendGroup_allOk]

/-- C1 (counterexample): flushing a queue holding two heatmap records
issues a single batched request, not one individual request per entry
as the claim states. -/
theorem flush_heatmap_batched_cex :
    (flushT allowAll okAll qTwoHeatmaps).1 =
      [⟨"/v1/sdk/heatmap", .heatmapBatch [1, 2]⟩] ∧
    (flushT allowAll okAll qTwoHeatmaps).1 ≠
      ((groupTypes qTwoHeatmaps).map
        (fun t => claimedGroupingSpec t (groupData t qTwoHeatmaps))).flatten := by
  exact ⟨by decide, by decide⟩

/-- C3: a freshly enqueued entry starts with `retryCount = 0` (and is
appended as such when the queue is below the auto-flush bound), and
every entry surviving a flush cycle descends from a drained entry with
`retryCount` strictly below the maximum 3, incremented by exactly one;
hence `retryCount` is non-decreasing, never exceeds 3, and an entry
whose group fails at `retryCount = 3` is dropped for good. -/
theorem retryCount_lifecycle (bs : Payload → Bool) (nk : Request → Bool)
    (q : List QueuedItem) (t : ItemType) (d : Data) (ts : ℕ) :
    (mkItem t d ts).retryCount = 0 ∧
    (q.length + 1 < maxQueueSize →
      enqueueT bs nk t d ts q = q ++ [mkItem t d ts]) ∧
    (∀ it ∈ (flushT bs nk q).2,
      it.retryCount ≤ maxRetries ∧
      ∃ orig ∈ q, it.data = orig.data ∧ orig.retryCount < maxRetries ∧
        it.retryCount = orig.retryCount + 1) := by
  refine ⟨rfl, ?_, ?_⟩
  · intro h
    unfold enqueueT
    rw [if_neg]
    simp only [List.length_append, List.length_cons, List.length_nil]
    omega
  · intro it hit
    unfold flushT at hit
    simp only [List.mem_flatten, List.mem_map] at hit
    obtain ⟨L, ⟨tt, _, hL⟩, hitL⟩ := hit
    subst hL
    rcases hok : (sendGroup bs nk tt (groupData tt q)).2 with _ | _ <;>
      rw [hok] at hitL
    · -- group failed: the member comes from requeueGroup
      rw [if_neg (by simp)] at hitL
      unfold requeueGroup at hitL
      simp only [List.mem_filterMap] at hitL
      obtain ⟨d0, _, hfind⟩ := hitL
      rcases hf : q.find? (fun it => it.data == d0) with _ | orig <;>
        rw [hf] at hfind
      · exact absurd hfind (by simp)
      · dsimp only at hfind
        rcases hlt : decide (orig.retryCount < maxRetries) with _ | _
        · rw [if_neg (of_decide_eq_false hlt)] at hfind
          exact absurd hfind (by simp)
        · rw [if_pos (of_decide_eq_true hlt)] at hfind
          obtain rfl := Option.some.inj hfind
          have horig : orig ∈ q := List.mem_of_find?_eq_some hf
          have hcnt : orig.retryCount < maxRetries := of_decide_eq_true hlt
          refine ⟨?_, orig, horig, rfl, hcnt, rfl⟩
          have h3 := hcnt
          simp only [maxRetries] at h3 ⊢
          omega
    · rw [if_pos rfl] at hitL
      exact absurd hitL (List.not_mem_nil it)

/-- Witness for C3: flushing a queue holding an entry at the retry cap
next to one below it (every request failing), the surviving entry has
`retryCount` 2 and descends from the entry that had 1. -/
theorem retryCount_lifecycle_witness :
    (mkItem .network 0 0).retryCount = 0 ∧
    qRetryMix.length + 1 < maxQueueSize ∧
    enqueueT allowAll okNone .network 0 0 qRetryMix =
      qRetryMix ++ [mkItem .network 0 0] ∧
    ((⟨.network, 6, 0, 2⟩ : QueuedItem) ∈ (flushT allowAll okNone qRetryMix).2 ∧
      ((⟨.network, 6, 0, 2⟩ : QueuedItem).retryCount ≤ maxRetries ∧
        ∃ orig ∈ qRetryMix, (⟨.network, 6, 0, 2⟩ : QueuedItem).data = orig.data ∧
          orig.retryCount < maxRetries ∧
          (⟨.network, 6, 0, 2⟩ : QueuedItem).retryCount = orig.retryCount + 1)) :=
  ⟨(retryCount_lifecycle allowAll okNone qRetryMix .network 0 0).1,
   by decide,
   (retryCount_lifecycle allowAll okNone qRetryMix .network 0 0).2.1 (by decide),
   by decide,
   (retryCount_lifecycle allowAll okNone qRetryMix .network 0 0).2.2
     ⟨.network, 6, 0, 2⟩ (by decide)⟩

/-- C8 (amended): for an arbitrary beforeSend hook, a vetoed payload is
skipped with no request and no error, and on a flush in which no other
send fails (every request put on the wire succeeds) the whole queue —
vetoed entries included — is dropped and nothing is re-queued.  (The
amendment: a vetoed entry next to a *failing* send of the same dispatch
group is re-queued with the rest of the group — see the
counterexample.) -/
theorem beforeSend_veto_drops (bs : Payload → Bool) (nk : Request → Bool)
    (q : List QueuedItem) (e : String) (p : Payload)
    (hp : bs p = false) (hok : ∀ r, nk r = true) :
    sendToBackend bs nk e p = ([], true) ∧
    (flushT bs nk q).2 = [] := by
  constructor
  · unfold sendToBackend
    rw [hp]
    simp
  · have hs : ∀ e2 p2, (sendToBackend bs nk e2 p2).2 = true := by
      intro e2 p2
      unfold sendToBackend
      split_ifs <;> simp [hok]
    have he : ∀ e2 l, (sendEach bs nk e2 l).2 = true := by
      intro e2 l
      induction l with
      | nil => rfl
      | cons d rest ih =>
        unfold sendEach
        dsimp only
        rw [if_pos (hs _ _)]
        exact ih
    have hg : ∀ tt arr, (sendGroup bs nk tt arr).2 = true := by
      intro tt arr
      unfold sendGroup
      split_ifs <;> first | exact hs _ _ | exact he _ _
    unfold flushT
    dsimp only
    have h2 : ((groupTypes q).map
        (fun t =>
          if (sendGroup bs nk t (groupData t q)).2 then []
          else requeueGroup q (groupData t q))) =
        (groupTypes q).map (fun _ => ([] : List QueuedItem)) := by
      simp [hg]
    rw [h2]
    simp

/-- Witness for C8: the hook vetoes record 1 of a two-record network
queue while record 2 goes through successfully — the vetoed send is a
silent no-op and the flush leaves the queue empty, dropping the vetoed
entry without re-queueing it. -/
theorem beforeSend_veto_drops_witness :
    vetoOne (.single 1) = false ∧
    sendToBackend vetoOne okAll "/v1/rum/network-requests" (.single 1) =
      ([], true) ∧
    (flushT vetoOne okAll qTwoNetwork).2 = [] :=
  ⟨by decide,
   (beforeSend_veto_drops vetoOne okAll qTwoNetwork "/v1/rum/network-requests"
     (.single 1) (by decide) (fun _ => rfl)).1,
   (beforeSend_veto_drops vetoOne okAll qTwoNetwork "/v1/rum/network-requests"
     (.single 1) (by decide) (fun _ => rfl)).2⟩

/-- C8 (counterexample): record 1 of a two-record network group is
vetoed by the hook, record 2 fails on the wire; the catch block
re-queues the whole group, so the vetoed entry reappears with
`retryCount` 1 — contradicting that vetoed entries are never
re-queued. -/
theorem vetoed_entry_requeued_cex :
    vetoOne (.single 1) = false ∧
    (flushT vetoOne failTwo qTwoNetwork).2 =
      [⟨.network, 1, 0, 1⟩, ⟨.network, 2, 0, 1⟩] :=
  ⟨by decide, by decide⟩

/-- C2 (amended): when the long-press timer fires while the touch is
still held, exactly one `longPress` record is emitted, at the start
coordinates; the touch-up resolving the same gesture (at time
`t0 + dur` with `dur ≥ 500`) can never emit a tap, but it does
additionally emit a `swipe` record exactly when the end point qualifies
as a swipe (distance at least 50px and velocity at least 0.3 px/ms, in
squared form); otherwise it emits nothing. -/
theorem longPress_then_touchEnd (cfg : HeatmapConfig) (s : HeatmapState)
    (t0 x0 y0 r0 dur x1 y1 r1 : ℚ)
    (htr : cfg.trackTouches = true)
    (hr0 : r0 ≤ cfg.touchSampling) (hr1 : r1 ≤ cfg.touchSampling)
    (hdur : LONG_PRESS_DURATION ≤ dur) :
    allTouches (fireLongPress cfg r0 (onTouchStart cfg t0 x0 y0 s)) =
      allTouches s ++
        [buildTouchData s .longPress x0 y0 (some LONG_PRESS_DURATION) none none none] ∧
    allTouches (onTouchEnd cfg (t0 + dur) x1 y1 r1
        (fireLongPress cfg r0 (onTouchStart cfg t0 x0 y0 s))) =
      allTouches (fireLongPress cfg r0 (onTouchStart cfg t0 x0 y0 s)) ++
        (if SWIPE_THRESHOLD * SWIPE_THRESHOLD ≤
              (x1 - x0) * (x1 - x0) + (y1 - y0) * (y1 - y0) ∧
            (SWIPE_VELOCITY_THRESHOLD * dur) * (SWIPE_VELOCITY_THRESHOLD * dur) ≤
              (x1 - x0) * (x1 - x0) + (y1 - y0) * (y1 - y0) then
          [buildTouchData s .swipe x0 y0 (some dur)
            (some (getSwipeDirection (x1 - x0) (y1 - y0))) (some x1) (some y1)]
        else []) := by
  have hguard : ¬((!cfg.trackTouches) = true) := by
    rw [htr]
    simp
  have key : ∀ u : HeatmapState, u.touchStartPoint = some ⟨x0, y0, t0⟩ →
      u.touchStartTime = t0 →
      u.currentScreen = s.currentScreen → u.screenWidth = s.screenWidth →
      u.screenHeight = s.screenHeight →
      allTouches (onTouchEnd cfg (t0 + dur) x1 y1 r1 u) =
        allTouches u ++
          (if SWIPE_THRESHOLD * SWIPE_THRESHOLD ≤
                (x1 - x0) * (x1 - x0) + (y1 - y0) * (y1 - y0) ∧
              (SWIPE_VELOCITY_THRESHOLD * dur) * (SWIPE_VELOCITY_THRESHOLD * dur) ≤
                (x1 - x0) * (x1 - x0) + (y1 - y0) * (y1 - y0) then
            [buildTouchData s .swipe x0 y0 (some dur)
              (some (getSwipeDirection (x1 - x0) (y1 - y0))) (some x1) (some y1)]
          else []) := by
    intro u hu1 hu2 hu3 hu4 hu5
    unfold onTouchEnd
    rw [if_neg hguard, hu1]
    dsimp only
    rw [hu2, add_sub_cancel_left]
    rw [if_neg (fun h => absurd hdur (not_le.mpr h.2))]
    rw [allTouches_clearPoint]
    split_ifs with hsw
    · rw [allTouches_recordTouch _ _ _ _ _ _ _ _ _ _ hr1]
      simp only [allTouches, buildTouchData]
      rw [hu3, hu4, hu5]
    · rw [List.append_nil]
      rfl
  have hstart : onTouchStart cfg t0 x0 y0 s =
      { s with touchStartTime := t0, touchStartPoint := some ⟨x0, y0, t0⟩,
               longPressPending := true } := by
    unfold onTouchStart
    rw [if_neg hguard]
  rw [hstart]
  have hfire : fireLongPress cfg r0
      { s with touchStartTime := t0, touchStartPoint := some ⟨x0, y0, t0⟩,
               longPressPending := true } =
      recordTouch cfg r0 .longPress x0 y0 (some LONG_PRESS_DURATION) none none none
        { s with touchStartTime := t0, touchStartPoint := some ⟨x0, y0, t0⟩,
                 longPressPending := false } := by
    unfold fireLongPress
    rfl
  rw [hfire]
  constructor
  · rw [allTouches_recordTouch _ _ _ _ _ _ _ _ _ _ hr0]
    rfl
  · exact key _ (by rw [recordTouch_touchStartPoint])
      (by rw [recordTouch_touchStartTime])
      (by rw [recordTouch_currentScreen])
      (by rw [recordTouch_screenWidth])
      (by rw [recordTouch_screenHeight])

/-- C2 (counterexample): with tracking enabled and sampling rate 1, a
press at (0,0) whose long-press timer fires at 500ms, released at
(1000,0) at 600ms, produces two records — the `longPress` and then a
`swipe` — not exactly one as the claim states. -/
theorem longPress_then_swipe_cex :
    ((onTouchEnd cfg1 600 1000 0 0
        (fireLongPress cfg1 0 (onTouchStart cfg1 0 0 0 initState))).touchQueue.map
      (fun td => (td.ttype, td.x, td.y))) =
      [(.longPress, 0, 0), (.swipe, 0, 0)] := by
  with_unfolding_all decide

/-- Witness for C2 (amended): press at (0,0) at time 0, timer fires,
release at (3,4) at time 500 — one longPress record and, the movement
being 5px, no swipe. -/
theorem longPress_then_touchEnd_witness :
    cfg1.trackTouches = true ∧
    (0:ℚ) ≤ cfg1.touchSampling ∧
    LONG_PRESS_DURATION ≤ (500:ℚ) ∧
    (allTouches (fireLongPress cfg1 0 (onTouchStart cfg1 0 0 0 initState)) =
      allTouches initState ++
        [buildTouchData initState .longPress 0 0 (some LONG_PRESS_DURATION)
          none none none] ∧
    allTouches (onTouchEnd cfg1 (0 + 500) 3 4 0
        (fireLongPress cfg1 0 (onTouchStart cfg1 0 0 0 initState))) =
      allTouches (fireLongPress cfg1 0 (onTouchStart cfg1 0 0 0 initState)) ++
        (if SWIPE_THRESHOLD * SWIPE_THRESHOLD ≤
              ((3:ℚ) - 0) * ((3:ℚ) - 0) + ((4:ℚ) - 0) * ((4:ℚ) - 0) ∧
            (SWIPE_VELOCITY_THRESHOLD * 500) * (SWIPE_VELOCITY_THRESHOLD * 500) ≤
              ((3:ℚ) - 0) * ((3:ℚ) - 0) + ((4:ℚ) - 0) * ((4:ℚ) - 0) then
          [buildTouchData initState .swipe 0 0 (some 500)
            (some (getSwipeDirection ((3:ℚ) - 0) ((4:ℚ) - 0))) (some 3) (some 4)]
        else [])) :=
  ⟨rfl, by decide, by decide,
   longPress_then_touchEnd cfg1 initState 0 0 0 0 500 3 4 0 rfl (by decide)
     (by decide) (by decide)⟩

/-- C9: a touch-up arriving with no active touch (after the previous
gesture was resolved, or at start of session) leaves the whole
collector state unchanged except for clearing the pending long-press
timer: no record of any kind is emitted and the queues and the
scroll-depth table keep their values. -/
theorem touchEnd_without_active_touch (cfg : HeatmapConfig) (s : HeatmapState)
    (now x y r : ℚ) (htr : cfg.trackTouches = true)
    (hsp : s.touchStartPoint = none) :
    onTouchEnd cfg now x y r s = { s with longPressPending := false } := by
  unfold onTouchEnd
  rw [if_neg (by rw [htr]; simp), hsp]

/-- Witness for C9: a stray touch-up on the freshly created collector. -/
theorem touchEnd_without_active_touch_witness :
    cfg1.trackTouches = true ∧
    initState.touchStartPoint = none ∧
    onTouchEnd cfg1 1 2 3 0 initState =
      { initState with longPressPending := false } :=
  ⟨rfl, rfl, touchEnd_without_active_touch cfg1 initState 1 2 3 0 rfl rfl⟩

/-- C10: when the horizontal and vertical displacement magnitudes are
exactly equal, `getSwipeDirection` takes the vertical branch: `down`
for positive dy, otherwise `up`. -/
theorem swipeDirection_tie (dx dy : ℚ) (h : |dx| = |dy|) :
    getSwipeDirection dx dy = if 0 < dy then .down else .up := by
  unfold getSwipeDirection
  rw [if_neg (show ¬(|dx| > |dy|) by rw [h]; exact lt_irrefl _)]

/-- Witness for C10: a perfectly diagonal up-right displacement is
classified on the vertical axis. -/
theorem swipeDirection_tie_witness :
    |(3:ℚ)| = |(-3:ℚ)| ∧
    getSwipeDirection 3 (-3) =
      (if (0:ℚ) < -3 then SwipeDirection.down else SwipeDirection.up) :=
  ⟨by decide, swipeDirection_tie 3 (-3) (by decide)⟩

/-- C4 (amended): for non-negative `scrollY` the computed depth equals
the rounded percentage clamped to [0, 100] exactly as the claim states,
and contents not exceeding the viewport give depth 100; the amendment
is the restriction to `0 ≤ scrollY` — the code clamps only from above,
so a negative `scrollY` yields a negative depth. -/
theorem scrollDepth_formula (sy ch vh : ℚ) (hsy : 0 ≤ sy) :
    scrollDepthCalc sy ch vh = scrollDepthSpec sy ch vh ∧
    (ch ≤ vh → scrollDepthCalc sy ch vh = 100) := by
  constructor
  · unfold scrollDepthCalc scrollDepthSpec
    dsimp only
    split_ifs with h1 h2 h3
    · exact absurd h2 (not_le.mpr (by linarith))
    · have hm : (0:ℚ) < ch - vh := h1
      have hq : 0 ≤ sy / (ch - vh) * 100 :=
        mul_nonneg (div_nonneg hsy hm.le) (by norm_num)
      have hr : 0 ≤ jsRound (sy / (ch - vh) * 100) := by
        unfold jsRound
        exact Int.floor_nonneg.mpr (by linarith)
      rw [show 100 * sy / (ch - vh) = sy / (ch - vh) * 100 by ring]
      exact (max_eq_right (le_min (by norm_num) hr)).symm
    · rfl
    · exact absurd (by linarith : ch ≤ vh) h3
  · intro h
    unfold scrollDepthCalc
    dsimp only
    rw [if_neg (by linarith : ¬(0:ℚ) < ch - vh)]

/-- Witness for C4 (amended): a content fully visible in the viewport
has depth 100, agreeing with the claimed formula. -/
theorem scrollDepth_formula_witness :
    (0:ℚ) ≤ 50 ∧ (100:ℚ) ≤ 200 ∧
    scrollDepthCalc 50 100 200 = scrollDepthSpec 50 100 200 ∧
    scrollDepthCalc 50 100 200 = 100 :=
  ⟨by decide, by decide, (scrollDepth_formula 50 100 200 (by decide)).1,
   (scrollDepth_formula 50 100 200 (by decide)).2 (by decide)⟩

/-- C4 (counterexample): at `scrollY = -100` (overscroll bounce) with
content 200 and viewport 100 the code computes depth −100, while the
claimed clamp to [0, 100] would give 0 — the lower clamp does not
exist in the code. -/
theorem scrollDepth_negative_cex :
    scrollDepthCalc (-100) 200 100 = -100 ∧
    scrollDepthSpec (-100) 200 100 = 0 ∧
    scrollDepthCalc (-100) 200 100 ≠ scrollDepthSpec (-100) 200 100 := by
  refine ⟨?_, ?_, ?_⟩ <;> with_unfolding_all decide

/-- C5: with touch tracking on and sampling rate 1, a touch-up at
`(x1, y1)` after duration `dur > 0` on a gesture started at `(x0, y0)`
emits exactly one tap record when the squared distance is below 10² and
the duration below 500ms; otherwise exactly one swipe record when the
squared distance is at least 50² and the squared velocity at least
0.3² (both in exact square-free form); otherwise nothing — and the
swipe direction is taken from the axis of strictly greater displacement
magnitude, signs picking right/left and down/up. -/
theorem touchEnd_classification (cfg : HeatmapConfig) (s : HeatmapState)
    (t0 dur x0 y0 ts0 x1 y1 r : ℚ)
    (htr : cfg.trackTouches = true)
    (hsp : s.touchStartPoint = some ⟨x0, y0, ts0⟩)
    (hst : s.touchStartTime = t0)
    (hdur : 0 < dur)
    (hsamp : cfg.touchSampling = 1)
    (hr0 : 0 ≤ r) (hr1 : r < 1) :
    allTouches (onTouchEnd cfg (t0 + dur) x1 y1 r s) =
      allTouches s ++
        (if (x1 - x0) * (x1 - x0) + (y1 - y0) * (y1 - y0) < 10 * 10 ∧
            dur < 500 then
          [buildTouchData s .tap x0 y0 (some dur) none none none]
        else if 50 * 50 ≤ (x1 - x0) * (x1 - x0) + (y1 - y0) * (y1 - y0) ∧
            ((3:ℚ) / 10 * dur) * ((3:ℚ) / 10 * dur) ≤
              (x1 - x0) * (x1 - x0) + (y1 - y0) * (y1 - y0) then
          [buildTouchData s .swipe x0 y0 (some dur)
            (some (getSwipeDirection (x1 - x0) (y1 - y0))) (some x1) (some y1)]
        else []) ∧
    (|x1 - x0| > |y1 - y0| →
      getSwipeDirection (x1 - x0) (y1 - y0) =
        if 0 < x1 - x0 then .right else .left) ∧
    (|y1 - y0| > |x1 - x0| →
      getSwipeDirection (x1 - x0) (y1 - y0) =
        if 0 < y1 - y0 then .down else .up) := by
  have hr : r ≤ cfg.touchSampling := by
    rw [hsamp]
    exact le_of_lt hr1
  refine ⟨?_, ?_, ?_⟩
  · unfold onTouchEnd
    rw [if_neg (by rw [htr]; simp), hsp]
    dsimp only
    rw [hst, add_sub_cancel_left, allTouches_clearPoint]
    simp only [LONG_PRESS_DURATION, SWIPE_THRESHOLD, SWIPE_VELOCITY_THRESHOLD]
    split_ifs with h1 h2
    · rw [allTouches_recordTouch _ _ _ _ _ _ _ _ _ _ hr]
      rfl
    · rw [allTouches_recordTouch _ _ _ _ _ _ _ _ _ _ hr]
      rfl
    · rw [List.append_nil]
      rfl
  · intro h
    unfold getSwipeDirection
    rw [if_pos h]
  · intro h
    unfold getSwipeDirection
    rw [if_neg (not_lt.mpr (le_of_lt h))]

/-- Witness for C5: a 2px, 100ms release is classified as a tap. -/
theorem touchEnd_classification_witness :
    cfg1.trackTouches = true ∧
    (onTouchStart cfg1 0 5 5 initState).touchStartPoint = some ⟨5, 5, 0⟩ ∧
    (onTouchStart cfg1 0 5 5 initState).touchStartTime = 0 ∧
    (0:ℚ) < 100 ∧ cfg1.touchSampling = 1 ∧ (0:ℚ) ≤ 0 ∧ (0:ℚ) < 1 ∧
    (allTouches (onTouchEnd cfg1 ((0:ℚ) + 100) 7 5 0
        (onTouchStart cfg1 0 5 5 initState)) =
      allTouches (onTouchStart cfg1 0 5 5 initState) ++
        (if ((7:ℚ) - 5) * ((7:ℚ) - 5) + ((5:ℚ) - 5) * ((5:ℚ) - 5) < 10 * 10 ∧
            (100:ℚ) < 500 then
          [buildTouchData (onTouchStart cfg1 0 5 5 initState) .tap 5 5
            (some 100) none none none]
        else if 50 * 50 ≤ ((7:ℚ) - 5) * ((7:ℚ) - 5) + ((5:ℚ) - 5) * ((5:ℚ) - 5) ∧
            ((3:ℚ) / 10 * 100) * ((3:ℚ) / 10 * 100) ≤
              ((7:ℚ) - 5) * ((7:ℚ) - 5) + ((5:ℚ) - 5) * ((5:ℚ) - 5) then
          [buildTouchData (onTouchStart cfg1 0 5 5 initState) .swipe 5 5
            (some 100) (some (getSwipeDirection ((7:ℚ) - 5) ((5:ℚ) - 5)))
            (some 7) (some 5)]
        else []) ∧
    (|(7:ℚ) - 5| > |(5:ℚ) - 5| →
      getSwipeDirection ((7:ℚ) - 5) ((5:ℚ) - 5) =
        if (0:ℚ) < (7:ℚ) - 5 then .right else .left) ∧
    (|(5:ℚ) - 5| > |(7:ℚ) - 5| →
      getSwipeDirection ((7:ℚ) - 5) ((5:ℚ) - 5) =
        if (0:ℚ) < (5:ℚ) - 5 then .down else .up)) :=
  ⟨rfl, rfl, rfl, by decide, rfl, by decide, by decide,
   touchEnd_classification cfg1 (onTouchStart cfg1 0 5 5 initState)
     0 100 5 5 0 7 5 0 rfl rfl rfl (by decide) rfl (by decide) (by decide)⟩

/-- C6: with scroll tracking on, an `onScroll` call emits a scroll
record exactly when the computed depth strictly exceeds the high-water
mark of the active screen, in which case the mark is raised to that
depth (so the mark becomes the max of old mark and depth, hence is
non-decreasing); marks of other screens are untouched, and none of the
other collector operations ever modifies the scroll-depth table. -/
theorem onScroll_highWaterMark (cfg : HeatmapConfig) (s : HeatmapState)
    (sy ch vh tA xA yA rA nowA : ℚ)
    (hts : cfg.trackScrolls = true) :
    allScrolls (onScroll cfg sy ch vh s) =
      allScrolls s ++
        (if s.maxScrollDepth s.currentScreen < scrollDepthCalc sy ch vh then
          [{ screenName := s.currentScreen
             scrollDepth := scrollDepthCalc sy ch vh
             maxScrollDepth := scrollDepthCalc sy ch vh
             contentHeight := ch
             viewportHeight := vh
             direction := if s.scrollStartY < sy then .down else .up }]
        else []) ∧
    (onScroll cfg sy ch vh s).maxScrollDepth s.currentScreen =
      max (s.maxScrollDepth s.currentScreen) (scrollDepthCalc sy ch vh) ∧
    (∀ k, k ≠ s.currentScreen →
      (onScroll cfg sy ch vh s).maxScrollDepth k = s.maxScrollDepth k) ∧
    (onTouchStart cfg tA xA yA s).maxScrollDepth = s.maxScrollDepth ∧
    (onTouchEnd cfg nowA xA yA rA s).maxScrollDepth = s.maxScrollDepth ∧
    (fireLongPress cfg rA s).maxScrollDepth = s.maxScrollDepth ∧
    (flushH s).maxScrollDepth = s.maxScrollDepth := by
  have hguard : ¬((!cfg.trackScrolls) = true) := by
    rw [hts]
    simp
  refine ⟨?_, ?_, ?_, onTouchStart_maxScrollDepth cfg tA xA yA s,
    onTouchEnd_maxScrollDepth cfg nowA xA yA rA s,
    fireLongPress_maxScrollDepth cfg rA s, rfl⟩
  · unfold onScroll
    rw [if_neg hguard]
    dsimp only
    split_ifs <;> simp [allScrolls, flushH, List.append_assoc]
  · unfold onScroll
    rw [if_neg hguard]
    dsimp only
    split_ifs with h1 h2 h3 <;>
      first
        | exact (max_eq_left (not_lt.mp h1)).symm
        | (dsimp only [flushH]
           rw [if_pos rfl]
           exact (max_eq_right (le_of_lt h1)).symm)
  · intro k hk
    unfold onScroll
    rw [if_neg hguard]
    dsimp only
    split_ifs with h1 h2 h3 <;>
      first
        | rfl
        | (dsimp only [flushH]
           rw [if_neg hk])

/-- Witness for C6: the first scroll to depth 50 on the fresh collector
emits a record and raises the mark from 0 to 50. -/
theorem onScroll_highWaterMark_witness :
    cfg1.trackScrolls = true ∧
    ("other" : String) ≠ initState.currentScreen ∧
    (allScrolls (onScroll cfg1 50 200 100 initState) =
      allScrolls initState ++
        (if initState.maxScrollDepth initState.currentScreen <
            scrollDepthCalc 50 200 100 then
          [{ screenName := initState.currentScreen
             scrollDepth := scrollDepthCalc 50 200 100
             maxScrollDepth := scrollDepthCalc 50 200 100
             contentHeight := 200
             viewportHeight := 100
             direction := if initState.scrollStartY < 50 then .down else .up }]
        else []) ∧
    (onScroll cfg1 50 200 100 initState).maxScrollDepth initState.currentScreen =
      max (initState.maxScrollDepth initState.currentScreen)
        (scrollDepthCalc 50 200 100)) ∧
    (onScroll cfg1 50 200 100 initState).maxScrollDepth "other" =
      initState.maxScrollDepth "other" :=
  ⟨rfl, by decide,
   ⟨(onScroll_highWaterMark cfg1 initState 50 200 100 0 0 0 0 0 rfl).1,
    (onScroll_highWaterMark cfg1 initState 50 200 100 0 0 0 0 0 rfl).2.1⟩,
   (onScroll_highWaterMark cfg1 initState 50 200 100 0 0 0 0 0 rfl).2.2.1
     "other" (by decide)⟩

/-- C7: activating screen `name` resets the high-water mark of `name`
to 0 and leaves the mark of every other screen unchanged. -/
theorem setCurrentScreen_resets (s : HeatmapState) (name : String) :
    (setCurrentScreen name s).currentScreen = name ∧
    (setCurrentScreen name s).maxScrollDepth name = 0 ∧
    ∀ k, k ≠ name → (setCurrentScreen name s).maxScrollDepth k =
      s.maxScrollDepth k := by
  refine ⟨rfl, ?_, ?_⟩
  · unfold setCurrentScreen
    dsimp only
    rw [if_pos rfl]
  · intro k hk
    unfold setCurrentScreen
    dsimp only
    rw [if_neg hk]

/-- Witness for C7: after screen "b" reached mark 50, activating "a"
zeroes the mark of "a" and keeps the mark of "b". -/
theorem setCurrentScreen_resets_witness :
    ("b" : String) ≠ "a" ∧
    (setCurrentScreen "a"
        (onScroll cfg1 50 200 100 (setCurrentScreen "b" initState))).currentScreen
      = "a" ∧
    (setCurrentScreen "a"
        (onScroll cfg1 50 200 100 (setCurrentScreen "b" initState))).maxScrollDepth
      "a" = 0 ∧
    (setCurrentScreen "a"
        (onScroll cfg1 50 200 100 (setCurrentScreen "b" initState))).maxScrollDepth
      "b" =
      (onScroll cfg1 50 200 100 (setCurrentScreen "b" initState)).maxScrollDepth
        "b" :=
  ⟨by decide,
   (setCurrentScreen_resets
     (onScroll cfg1 50 200 100 (setCurrentScreen "b" initState)) "a").1,
   (setCurrentScreen_resets
     (onScroll cfg1 50 200 100 (setCurrentScreen "b" initState)) "a").2.1,
   (setCurrentScreen_resets
     (onScroll cfg1 50 200 100 (setCurrentScreen "b" initState)) "a").2.2
     "b" (by decide)⟩

end DevSkin
